import Mathlib

/-!
# Perses configuration: the `Schemas` section and its `Verify` method

Shallow embedding of `internal/api/config/schemas.go`.

* A Go `string` is embedded as a Lean `String`; the only operation the source
  applies to it is `len(..) == 0`, embedded as `len` (the length in bytes).
  A Go string may also hold bytes that are not valid UTF-8, which a Lean
  `String` cannot; such a string has a positive length and `Verify` reads
  nothing but the length, so it is treated like every other non-empty string.
* A Go `time.Duration` is an `int64` counting nanoseconds; it is embedded as an
  `Int`.  `Verify` performs no arithmetic on it (one comparison with `0`, one
  assignment of a constant), so no wrap-around can occur; `IsInt64` names the
  range of the machine type and `Verify` is shown to stay inside it.
* `Verify` has a pointer receiver it mutates in place and returns an `error`.
  It is embedded with explicit state passing: it takes the pointed-to value and
  returns the value after the call together with the returned error
  (`none` for Go's `nil`).
-/

namespace config

/-! ## Go primitives used by the source -/

/-- Go's builtin `len` on a string: the number of bytes of the string. -/
def len (s : String) : Nat := s.utf8ByteSize

/-- Lower end of the range of Go's `int64`. -/
def minInt64 : Int := -9223372036854775808

/-- Upper end of the range of Go's `int64`. -/
def maxInt64 : Int := 9223372036854775807

/-- The values an `int64` (hence a `time.Duration`) can hold. -/
def IsInt64 (i : Int) : Prop := minInt64 ≤ i ∧ i ≤ maxInt64

instance (i : Int) : Decidable (IsInt64 i) := by
  unfold IsInt64; exact inferInstance

/-- Go's `time.Duration`: a signed count of nanoseconds. -/
abbrev Duration := Int

/-- Modelled from the spec: the duration constants of Go's standard `time`
package (`time.Nanosecond` up to `time.Hour`) are not among the files of this
repository; a duration counts nanoseconds and the default interval is one
hour. -/
def time.Nanosecond : Duration := 1

/-- Go's `time.Microsecond = 1000 * Nanosecond`. -/
def time.Microsecond : Duration := 1000 * time.Nanosecond

/-- Go's `time.Millisecond = 1000 * Microsecond`. -/
def time.Millisecond : Duration := 1000 * time.Microsecond

/-- Go's `time.Second = 1000 * Millisecond`. -/
def time.Second : Duration := 1000 * time.Millisecond

/-- Go's `time.Minute = 60 * Second`. -/
def time.Minute : Duration := 60 * time.Second

/-- Go's `time.Hour = 60 * Minute`. -/
def time.Hour : Duration := 60 * time.Minute

/-- A non-nil value of Go's `error` interface, carrying its message. -/
structure GoError where
  msg : String
  deriving DecidableEq

/-! ## The source: constants, the record, `Verify` -/

/-- Source line 19. -/
def defaultPanelsPath : String := "schemas/panels"

/-- Source line 20. -/
def defaultQueriesPath : String := "schemas/queries"

/-- Source line 21. -/
def defaultDatasourcesPath : String := "schemas/datasources"

/-- Source line 22: `1 * time.Hour`. -/
def defaultInterval : Duration := 1 * time.Hour

/-- The `Schemas` struct (source lines 25-30). -/
structure Schemas where
  PanelsPath : String
  QueriesPath : String
  DatasourcesPath : String
  Interval : Duration
  deriving DecidableEq

/-- The method `(s *Schemas) Verify() error` (source lines 32-46).  The four
`if` statements run in the order of the source, each on the record as left by
the previous one; the result is the record after the call and the returned
error, which is always Go's `nil`. -/
def Schemas.Verify (s : Schemas) : Schemas × Option GoError :=
  let s := if len s.PanelsPath == 0 then { s with PanelsPath := defaultPanelsPath } else s
  let s := if len s.QueriesPath == 0 then { s with QueriesPath := defaultQueriesPath } else s
  let s := if len s.DatasourcesPath == 0 then
    { s with DatasourcesPath := defaultDatasourcesPath } else s
  let s := if s.Interval ≤ 0 then { s with Interval := defaultInterval } else s
  (s, none)

/-- The zero value of `Schemas`, as Go creates it for `Schemas{}`. -/
def Schemas.zero : Schemas :=
  { PanelsPath := "", QueriesPath := "", DatasourcesPath := "", Interval := 0 }

/-! ## Concrete inputs -/

/-- Five minutes before zero: the duration `-5m`. -/
def minusFiveMinutes : Duration := -(5 * time.Minute)

/-- Thirty seconds: the duration `30s`. -/
def thirtySeconds : Duration := 30 * time.Second

/-- Only `PanelsPath` unset. -/
def onlyPanelsUnset : Schemas :=
  { PanelsPath := "", QueriesPath := "q", DatasourcesPath := "d", Interval := 7 }

/-- Only `QueriesPath` unset, with a negative interval. -/
def onlyQueriesUnset : Schemas :=
  { PanelsPath := "p", QueriesPath := "", DatasourcesPath := "d", Interval := minusFiveMinutes }

/-- Only `DatasourcesPath` unset. -/
def onlyDatasourcesUnset : Schemas :=
  { PanelsPath := "p", QueriesPath := "q", DatasourcesPath := "", Interval := 0 }

/-- A whitespace-only `PanelsPath`; the other fields are unset. -/
def blankPanels : Schemas :=
  { PanelsPath := " ", QueriesPath := "", DatasourcesPath := "", Interval := 0 }

/-- A `QueriesPath` equal to the default of `PanelsPath`. -/
def queriesIsPanelsDefault : Schemas :=
  { PanelsPath := "", QueriesPath := "schemas/panels", DatasourcesPath := "", Interval := 0 }

/-- A `DatasourcesPath` equal to the default of `QueriesPath`. -/
def datasourcesIsQueriesDefault : Schemas :=
  { PanelsPath := "x", QueriesPath := "", DatasourcesPath := "schemas/queries",
    Interval := maxInt64 }

/-- An interval of exactly zero. -/
def zeroInterval : Schemas :=
  { PanelsPath := "a", QueriesPath := "b", DatasourcesPath := "c", Interval := 0 }

/-- The interval `-5m`, all paths unset. -/
def negativeInterval : Schemas :=
  { PanelsPath := "", QueriesPath := "", DatasourcesPath := "", Interval := minusFiveMinutes }

/-- The most negative interval of the machine type. -/
def mostNegativeInterval : Schemas :=
  { PanelsPath := "a", QueriesPath := "", DatasourcesPath := "c", Interval := minInt64 }

/-- An interval of one nanosecond. -/
def oneNanosecond : Schemas :=
  { PanelsPath := "", QueriesPath := "", DatasourcesPath := "", Interval := time.Nanosecond }

/-- The largest interval of the machine type. -/
def largestInterval : Schemas :=
  { PanelsPath := "a", QueriesPath := "b", DatasourcesPath := "", Interval := maxInt64 }

/-- All four fields set: paths `a`, `b`, `c` and `30s`. -/
def fullySet : Schemas :=
  { PanelsPath := "a", QueriesPath := "b", DatasourcesPath := "c", Interval := thirtySeconds }

/-- A record with the `PanelsPath` of `fullySet`, all else different. -/
def otherA : Schemas :=
  { PanelsPath := "a", QueriesPath := "", DatasourcesPath := "zzz", Interval := minInt64 }

/-- A record with the `QueriesPath` of `otherA` and the `DatasourcesPath` of
`fullySet`, all else different from each. -/
def otherB : Schemas :=
  { PanelsPath := "", QueriesPath := "", DatasourcesPath := "c", Interval := 12 }

/-- A record with the `Interval` of `otherB`, all else different. -/
def otherC : Schemas :=
  { PanelsPath := "k", QueriesPath := "schemas/datasources", DatasourcesPath := "",
    Interval := 12 }

/-- Only `PanelsPath` supplied, the other fields at their zero value. -/
def onlyPanels (p : String) : Schemas :=
  { PanelsPath := p, QueriesPath := "", DatasourcesPath := "", Interval := 0 }

/-! ## Helper lemmas -/

/-- A string with at least one character occupies at least one byte. -/
theorem utf8ByteSize_go_cons_pos (c : Char) (cs : List Char) :
    0 < String.utf8ByteSize.go (c :: cs) := by
  have h := Char.utf8Size_pos c
  simp only [String.utf8ByteSize.go]
  omega

/-- A string has byte length zero exactly when it is the empty string. -/
theorem len_eq_zero_iff (s : String) : len s = 0 ↔ s = "" := by
  cases s with
  | mk cs =>
    cases cs with
    | nil => simp [len, String.utf8ByteSize, String.utf8ByteSize.go]
    | cons c cs =>
      have h := utf8ByteSize_go_cons_pos c cs
      constructor
      · intro h0
        simp only [len, String.utf8ByteSize] at h0
        omega
      · intro h0
        have h1 := congrArg String.data h0
        simp at h1

/-- One hour is 3600000000000 nanoseconds. -/
theorem defaultInterval_eq : defaultInterval = 3600000000000 := by decide

/-- The record left by `Verify`, field by field: every field is a function of
the same field of the input alone. -/
theorem Verify_fst (s : Schemas) :
    s.Verify.1 =
      { PanelsPath := if s.PanelsPath = "" then defaultPanelsPath else s.PanelsPath,
        QueriesPath := if s.QueriesPath = "" then defaultQueriesPath else s.QueriesPath,
        DatasourcesPath :=
          if s.DatasourcesPath = "" then defaultDatasourcesPath else s.DatasourcesPath,
        Interval := if s.Interval ≤ 0 then defaultInterval else s.Interval } := by
  simp only [Schemas.Verify, beq_iff_eq, len_eq_zero_iff]
  split_ifs <;> rfl

/-- The field `PanelsPath` after `Verify`. -/
theorem Verify_PanelsPath (s : Schemas) :
    s.Verify.1.PanelsPath = if s.PanelsPath = "" then defaultPanelsPath else s.PanelsPath := by
  rw [Verify_fst]

/-- The field `QueriesPath` after `Verify`. -/
theorem Verify_QueriesPath (s : Schemas) :
    s.Verify.1.QueriesPath =
      if s.QueriesPath = "" then defaultQueriesPath else s.QueriesPath := by
  rw [Verify_fst]

/-- The field `DatasourcesPath` after `Verify`. -/
theorem Verify_DatasourcesPath (s : Schemas) :
    s.Verify.1.DatasourcesPath =
      if s.DatasourcesPath = "" then defaultDatasourcesPath else s.DatasourcesPath := by
  rw [Verify_fst]

/-- The field `Interval` after `Verify`. -/
theorem Verify_Interval (s : Schemas) :
    s.Verify.1.Interval = if s.Interval ≤ 0 then defaultInterval else s.Interval := by
  rw [Verify_fst]

/-- The interval left by `Verify` is again a value of the machine type. -/
theorem Verify_Interval_isInt64 (s : Schemas) (h : IsInt64 s.Interval) :
    IsInt64 s.Verify.1.Interval := by
  rw [Verify_Interval]
  split_ifs
  · rw [defaultInterval_eq]; decide
  · exact h

/-! ## The contract of `Verify` -/

/-- C1: after `Verify`, whatever the input, the three path fields are
non-empty strings and `Interval` is strictly greater than 0. -/
theorem Verify_establishes_invariants (s : Schemas) :
    s.Verify.1.PanelsPath ≠ "" ∧ s.Verify.1.QueriesPath ≠ "" ∧
      s.Verify.1.DatasourcesPath ≠ "" ∧ 0 < s.Verify.1.Interval := by
  rw [Verify_PanelsPath, Verify_QueriesPath, Verify_DatasourcesPath, Verify_Interval]
  refine ⟨?_, ?_, ?_, ?_⟩
  · split_ifs with h
    · decide
    · exact h
  · split_ifs with h
    · decide
    · exact h
  · split_ifs with h
    · decide
    · exact h
  · split_ifs with h
    · rw [defaultInterval_eq]; decide
    · exact not_le.mp h

/-- C2: for each path field separately, if the field is the empty string
then after `Verify` it equals its fixed default: `schemas/panels`,
`schemas/queries`, `schemas/datasources`; the other fields play no role. -/
theorem Verify_empty_path_gets_default (s : Schemas) :
    (s.PanelsPath = "" → s.Verify.1.PanelsPath = "schemas/panels") ∧
      (s.QueriesPath = "" → s.Verify.1.QueriesPath = "schemas/queries") ∧
      (s.DatasourcesPath = "" → s.Verify.1.DatasourcesPath = "schemas/datasources") := by
  refine ⟨fun h => ?_, fun h => ?_, fun h => ?_⟩
  · rw [Verify_PanelsPath, if_pos h]; rfl
  · rw [Verify_QueriesPath, if_pos h]; rfl
  · rw [Verify_DatasourcesPath, if_pos h]; rfl

/-- Witness of C2: each default is obtained on a record where only that path
is unset. -/
theorem Verify_empty_path_gets_default_witness :
    onlyPanelsUnset.PanelsPath = "" ∧
      onlyPanelsUnset.Verify.1.PanelsPath = "schemas/panels" ∧
      onlyQueriesUnset.QueriesPath = "" ∧
      onlyQueriesUnset.Verify.1.QueriesPath = "schemas/queries" ∧
      onlyDatasourcesUnset.DatasourcesPath = "" ∧
      onlyDatasourcesUnset.Verify.1.DatasourcesPath = "schemas/datasources" :=
  ⟨rfl, (Verify_empty_path_gets_default onlyPanelsUnset).1 rfl,
    rfl, (Verify_empty_path_gets_default onlyQueriesUnset).2.1 rfl,
    rfl, (Verify_empty_path_gets_default onlyDatasourcesUnset).2.2 rfl⟩

/-- C3: for each path field separately, if the field is a non-empty string
`p`, of any content, then after `Verify` the field still equals `p`. -/
theorem Verify_keeps_nonempty_path (s : Schemas) (p : String) (hp : p ≠ "") :
    (s.PanelsPath = p → s.Verify.1.PanelsPath = p) ∧
      (s.QueriesPath = p → s.Verify.1.QueriesPath = p) ∧
      (s.DatasourcesPath = p → s.Verify.1.DatasourcesPath = p) := by
  refine ⟨fun h => ?_, fun h => ?_, fun h => ?_⟩
  · rw [Verify_PanelsPath, if_neg (h ▸ hp), h]
  · rw [Verify_QueriesPath, if_neg (h ▸ hp), h]
  · rw [Verify_DatasourcesPath, if_neg (h ▸ hp), h]

/-- Witness of C3: a whitespace-only path and paths equal to the default of
another field are kept. -/
theorem Verify_keeps_nonempty_path_witness :
    blankPanels.Verify.1.PanelsPath = " " ∧
      queriesIsPanelsDefault.Verify.1.QueriesPath = "schemas/panels" ∧
      datasourcesIsQueriesDefault.Verify.1.DatasourcesPath = "schemas/queries" :=
  ⟨(Verify_keeps_nonempty_path blankPanels " " (by decide)).1 rfl,
    (Verify_keeps_nonempty_path queriesIsPanelsDefault "schemas/panels" (by decide)).2.1 rfl,
    (Verify_keeps_nonempty_path datasourcesIsQueriesDefault "schemas/queries"
      (by decide)).2.2 rfl⟩

/-- C4: if `Interval` is less than or equal to 0 then after `Verify` it is one
hour, exactly 3600000000000 nanoseconds. -/
theorem Verify_nonpositive_interval (s : Schemas) (h : s.Interval ≤ 0) :
    s.Verify.1.Interval = 3600000000000 ∧ s.Verify.1.Interval = time.Hour := by
  rw [Verify_Interval, if_pos h, defaultInterval_eq]
  exact ⟨rfl, by decide⟩

/-- Witness of C4: the intervals 0, `-5m` and the most negative value of the
machine type all become one hour. -/
theorem Verify_nonpositive_interval_witness :
    minusFiveMinutes = -300000000000 ∧
      zeroInterval.Verify.1.Interval = 3600000000000 ∧
      negativeInterval.Verify.1.Interval = 3600000000000 ∧
      mostNegativeInterval.Verify.1.Interval = 3600000000000 :=
  ⟨by decide, (Verify_nonpositive_interval zeroInterval (by decide)).1,
    (Verify_nonpositive_interval negativeInterval (by decide)).1,
    (Verify_nonpositive_interval mostNegativeInterval (by decide)).1⟩

/-- C5: if `Interval` is strictly greater than 0 then after `Verify` it equals
its value before the call. -/
theorem Verify_keeps_positive_interval (s : Schemas) (h : 0 < s.Interval) :
    s.Verify.1.Interval = s.Interval := by
  rw [Verify_Interval, if_neg (not_le.mpr h)]

/-- Witness of C5: one nanosecond and the largest value of the machine type
are both kept. -/
theorem Verify_keeps_positive_interval_witness :
    oneNanosecond.Verify.1.Interval = 1 ∧
      largestInterval.Verify.1.Interval = 9223372036854775807 :=
  ⟨Verify_keeps_positive_interval oneNanosecond (by decide),
    Verify_keeps_positive_interval largestInterval (by decide)⟩

/-- C6: `Verify` is idempotent: running it twice leaves the same record as
running it once. -/
theorem Verify_idempotent (s : Schemas) : s.Verify.1.Verify.1 = s.Verify.1 := by
  have h1 : s.Verify.1.PanelsPath ≠ "" := by
    rw [Verify_PanelsPath]; split_ifs with h
    · decide
    · exact h
  have h2 : s.Verify.1.QueriesPath ≠ "" := by
    rw [Verify_QueriesPath]; split_ifs with h
    · decide
    · exact h
  have h3 : s.Verify.1.DatasourcesPath ≠ "" := by
    rw [Verify_DatasourcesPath]; split_ifs with h
    · decide
    · exact h
  have h4 : ¬ s.Verify.1.Interval ≤ 0 := by
    rw [Verify_Interval]; split_ifs with h
    · rw [defaultInterval_eq]; decide
    · exact h
  rw [Verify_fst s.Verify.1, if_neg h1, if_neg h2, if_neg h3, if_neg h4]

/-- C7: `Verify` returns the nil error on every input. -/
theorem Verify_returns_nil (s : Schemas) : s.Verify.2 = none := rfl

/-- C8: the value of a field after `Verify` depends only on that field of the
input: two inputs that agree on a field agree on it after `Verify`.  In
particular a non-empty `PanelsPath` alone yields that path and the three other
defaults. -/
theorem Verify_field_independence (s t : Schemas) (p : String) :
    (s.PanelsPath = t.PanelsPath → s.Verify.1.PanelsPath = t.Verify.1.PanelsPath) ∧
      (s.QueriesPath = t.QueriesPath → s.Verify.1.QueriesPath = t.Verify.1.QueriesPath) ∧
      (s.DatasourcesPath = t.DatasourcesPath →
        s.Verify.1.DatasourcesPath = t.Verify.1.DatasourcesPath) ∧
      (s.Interval = t.Interval → s.Verify.1.Interval = t.Verify.1.Interval) ∧
      (p ≠ "" → (onlyPanels p).Verify.1 =
        { PanelsPath := p, QueriesPath := "schemas/queries",
          DatasourcesPath := "schemas/datasources", Interval := 3600000000000 }) := by
  refine ⟨fun h => ?_, fun h => ?_, fun h => ?_, fun h => ?_, fun h => ?_⟩
  · rw [Verify_PanelsPath, Verify_PanelsPath, h]
  · rw [Verify_QueriesPath, Verify_QueriesPath, h]
  · rw [Verify_DatasourcesPath, Verify_DatasourcesPath, h]
  · rw [Verify_Interval, Verify_Interval, h]
  · rw [Verify_fst]
    simp only [onlyPanels, if_neg h, if_pos, le_refl, defaultInterval_eq]
    rfl

/-- Witness of C8: pairs of records that agree on exactly one field, and the
custom panels path of the scenario. -/
theorem Verify_field_independence_witness :
    fullySet.Verify.1.PanelsPath = otherA.Verify.1.PanelsPath ∧
      otherA.Verify.1.QueriesPath = otherB.Verify.1.QueriesPath ∧
      fullySet.Verify.1.DatasourcesPath = otherB.Verify.1.DatasourcesPath ∧
      otherB.Verify.1.Interval = otherC.Verify.1.Interval ∧
      (onlyPanels "/custom/panels").Verify.1 =
        { PanelsPath := "/custom/panels", QueriesPath := "schemas/queries",
          DatasourcesPath := "schemas/datasources", Interval := 3600000000000 } :=
  ⟨(Verify_field_independence fullySet otherA "/custom/panels").1 rfl,
    (Verify_field_independence otherA otherB "/custom/panels").2.1 rfl,
    (Verify_field_independence fullySet otherB "/custom/panels").2.2.1 rfl,
    (Verify_field_independence otherB otherC "/custom/panels").2.2.2.1 rfl,
    (Verify_field_independence fullySet otherA "/custom/panels").2.2.2.2 (by decide)⟩

/-- C9: if the three path fields are non-empty and `Interval` is strictly
positive, `Verify` leaves the record identical to its input. -/
theorem Verify_fixes_valid (s : Schemas) (hp : s.PanelsPath ≠ "") (hq : s.QueriesPath ≠ "")
    (hd : s.DatasourcesPath ≠ "") (hi : 0 < s.Interval) : s.Verify.1 = s := by
  rw [Verify_fst, if_neg hp, if_neg hq, if_neg hd, if_neg (not_le.mpr hi)]

/-- Witness of C9: paths `a`, `b`, `c` with an interval of `30s` come back
as they are. -/
theorem Verify_fixes_valid_witness :
    thirtySeconds = 30000000000 ∧
      fullySet.Verify.1 =
        { PanelsPath := "a", QueriesPath := "b", DatasourcesPath := "c",
          Interval := 30000000000 } :=
  ⟨by decide,
    Verify_fixes_valid fullySet (by decide) (by decide) (by decide) (by decide)⟩

/-- C10: on the zero value (all paths empty, interval 0) `Verify` yields
exactly the four defaults, the interval being 3600000000000 nanoseconds. -/
theorem Verify_zero_value :
    Schemas.zero.Verify.1 =
      { PanelsPath := "schemas/panels", QueriesPath := "schemas/queries",
        DatasourcesPath := "schemas/datasources", Interval := 3600000000000 } := by
  decide

/-- C11: `Verify` changes the record exactly when the input is invalid: the
record after `Verify` differs from the input if and only if a path field is the
empty string or `Interval` is less than or equal to 0.  Equivalently, the fixed
points of `Verify` are exactly the records with all paths non-empty and
`Interval` strictly positive. -/
theorem Verify_changes_iff_invalid (s : Schemas) :
    (s.Verify.1 ≠ s ↔
        (s.PanelsPath = "" ∨ s.QueriesPath = "" ∨ s.DatasourcesPath = "" ∨
          s.Interval ≤ 0)) ∧
      (s.Verify.1 = s ↔
        (s.PanelsPath ≠ "" ∧ s.QueriesPath ≠ "" ∧ s.DatasourcesPath ≠ "" ∧
          0 < s.Interval)) := by
  have fixed : s.Verify.1 = s ↔
      (s.PanelsPath ≠ "" ∧ s.QueriesPath ≠ "" ∧ s.DatasourcesPath ≠ "" ∧
        0 < s.Interval) := by
    constructor
    · intro h
      have hp := congrArg Schemas.PanelsPath h
      have hq := congrArg Schemas.QueriesPath h
      have hd := congrArg Schemas.DatasourcesPath h
      have hi := congrArg Schemas.Interval h
      rw [Verify_PanelsPath] at hp
      rw [Verify_QueriesPath] at hq
      rw [Verify_DatasourcesPath] at hd
      rw [Verify_Interval] at hi
      refine ⟨fun e => ?_, fun e => ?_, fun e => ?_, ?_⟩
      · rw [if_pos e, e] at hp
        exact absurd hp (by decide)
      · rw [if_pos e, e] at hq
        exact absurd hq (by decide)
      · rw [if_pos e, e] at hd
        exact absurd hd (by decide)
      · by_contra hn
        have hle : s.Interval ≤ 0 := not_lt.mp hn
        rw [if_pos hle, defaultInterval_eq] at hi
        rw [← hi] at hle
        exact absurd hle (by decide)
    · rintro ⟨hp, hq, hd, hi⟩
      rw [Verify_fst, if_neg hp, if_neg hq, if_neg hd, if_neg (not_le.mpr hi)]
  refine ⟨?_, fixed⟩
  rw [Ne, fixed]
  constructor
  · intro h
    by_contra hn
    simp only [not_or, not_le] at hn
    exact h hn
  · rintro (h | h | h | h) ⟨hp, hq, hd, hi⟩
    · exact hp h
    · exact hq h
    · exact hd h
    · exact absurd hi (not_lt.mpr h)

end config
